import Mathlib

/-!
Verification development for the mexc_utility_bot repository.

The Python source is shallowly embedded: pure helpers become Lean functions,
stateful code becomes explicit state passing, Python exceptions become
Except results, Python None/bool/int/float/str/list/dict values become the
PyVal inductive, and Python floats are modelled as exact rationals.
Each definition carries a comment naming the source function it embeds.
-/

/-! ## Python value model -/

/-- Model of a dynamically typed Python value. Floats are modelled as exact
rationals (no rounding, no inf/nan). Dicts are association lists without
duplicate keys. -/
inductive PyVal : Type where
  | none : PyVal
  | boolean : Bool → PyVal
  | int : ℤ → PyVal
  | float : ℚ → PyVal
  | str : String → PyVal
  | list : List PyVal → PyVal
  | dict : List (String × PyVal) → PyVal

/-- Python truthiness of a value, as used in `if x:` tests. -/
def pyTruthy : PyVal → Bool
  | .none => false
  | .boolean b => b
  | .int n => n ≠ 0
  | .float q => q ≠ 0
  | .str s => s ≠ ""
  | .list l => !l.isEmpty
  | .dict d => !d.isEmpty

/-- Python dict.get(k) with default None. -/
def pyDictGet (d : List (String × PyVal)) (k : String) : PyVal :=
  match d.find? (fun p => p.1 = k) with
  | some p => p.2
  | Option.none => .none

/-- Python dict.get(k, default). -/
def pyDictGetD (d : List (String × PyVal)) (k : String) (dflt : PyVal) : PyVal :=
  match d.find? (fun p => p.1 = k) with
  | some p => p.2
  | Option.none => dflt

/-! ## Python string primitives (ASCII model)

Python str.strip / str.replace (single-character needles) / str.upper /
str.lower and the `in` substring test, modelled on lists of characters.
Only the ASCII behaviour is modelled, which is what the repository feeds
these functions (exchange symbols and network names). -/

/-- The whitespace characters removed by str.strip (ASCII model). -/
def isPySpace (c : Char) : Bool :=
  c = ' ' || c = '\t' || c = '\n' || c = '\x0d' || c = '\x0b' || c = '\x0c'

/-- Python str.strip: drop leading and trailing whitespace. -/
def pyStripList (l : List Char) : List Char :=
  ((l.dropWhile isPySpace).reverse.dropWhile isPySpace).reverse

/-- Python str.replace(a, b) for single-character a and b. -/
def pyReplaceChar (a b : Char) (l : List Char) : List Char :=
  l.map fun c => if c = a then b else c

/-- Python str.upper (ASCII model): uppercase every character. -/
def pyUpperStr (s : String) : String :=
  ⟨s.data.map Char.toUpper⟩

/-- Python str.lower (ASCII model): lowercase every character. -/
def pyLowerStr (s : String) : String :=
  ⟨s.data.map Char.toLower⟩

/-- Does the needle occur at the head of the haystack? -/
def listLeads : List Char → List Char → Bool
  | [], _ => true
  | _ :: _, [] => false
  | a :: as, b :: bs => a = b && listLeads as bs

/-- Python substring test `needle in s`, on character lists. -/
def listHasSub (needle : List Char) : List Char → Bool
  | [] => listLeads needle []
  | s@(_ :: rest) => listLeads needle s || listHasSub needle rest

/-- Python substring test `needle in s` on strings. -/
def pyInStr (needle s : String) : Bool :=
  listHasSub needle.data s.data

/-! ## Python float() on strings

A decimal-literal parser modelling the Python builtin float() on inputs of
the form [ws] [sign] digits [. digits] [(e|E) [sign] digits] [ws].
Underscore separators, inf and nan are not modelled; the repository only
feeds decimal price strings to float(). -/

/-- Fold a digit list into a natural number (the list must be all digits). -/
def digitsVal (l : List Char) : ℕ :=
  l.foldl (fun a c => a * 10 + (c.toNat - 48)) 0

/-- Split a character list at the first character satisfying p; returns the
part before it and, when found, the part after it. -/
def splitAtFirst (p : Char → Bool) : List Char → List Char × Option (List Char)
  | [] => ([], Option.none)
  | c :: rest =>
    if p c then ([], some rest)
    else
      let (a, b) := splitAtFirst p rest
      (c :: a, b)

/-- Parse an optional sign; returns (negative?, rest). -/
def parseSign : List Char → Bool × List Char
  | '+' :: r => (false, r)
  | '-' :: r => (true, r)
  | l => (false, l)

/-- Parse the decimal mantissa `digits[.digits]`; at least one digit must be
present overall. -/
def parseMantissa (l : List Char) : Option ℚ :=
  let (ip, fpOpt) := splitAtFirst (· = '.') l
  if !ip.all Char.isDigit then Option.none
  else
    match fpOpt with
    | Option.none =>
      if ip.isEmpty then Option.none else some ((digitsVal ip : ℤ) : ℚ)
    | some fp =>
      if !fp.all Char.isDigit then Option.none
      else if ip.isEmpty && fp.isEmpty then Option.none
      else some (((digitsVal ip : ℤ) : ℚ) + ((digitsVal fp : ℤ) : ℚ) / ((10 : ℚ) ^ fp.length))

/-- Parse a Python float literal string; none models ValueError. -/
def parsePyFloat (s : String) : Option ℚ :=
  let t := pyStripList s.data
  let (neg, t₁) := parseSign t
  let (mant, expOpt) := splitAtFirst (fun c => c = 'e' || c = 'E') t₁
  match parseMantissa mant with
  | Option.none => Option.none
  | some m =>
    let signed := if neg then -m else m
    match expOpt with
    | Option.none => some signed
    | some ex =>
      let (eneg, ed) := parseSign ex
      if ed.isEmpty || !ed.all Char.isDigit then Option.none
      else
        let e : ℤ := if eneg then -(digitsVal ed : ℤ) else (digitsVal ed : ℤ)
        some (signed * (10 : ℚ) ^ e)

/-- The Python builtin float(x) on an arbitrary value: numbers convert,
strings are parsed (ValueError on failure), everything else is a TypeError.
Errors are returned as Except.error with the exception name. -/
def pyFloat : PyVal → Except String ℚ
  | .int n => .ok (n : ℚ)
  | .float q => .ok q
  | .boolean b => .ok (if b then 1 else 0)
  | .str s =>
    match parsePyFloat s with
    | some q => .ok q
    | Option.none => .error "ValueError"
  | .none => .error "TypeError"
  | .list _ => .error "TypeError"
  | .dict _ => .error "TypeError"

/-! ## Spread evaluation and alert policy

BaseFairPriceAlertService._should_alert
(src/application/services/base_fair_price_alert_service.py lines 149-180). -/

/-- BaseFairPriceAlertService._should_alert: validates that both prices are
strictly positive, computes the spread percentage and compares its absolute
value against the hard-coded 5.0 percent threshold (line 165). -/
def shouldAlert (last_price fair_price : ℚ) : Bool :=
  if fair_price ≤ 0 ∨ last_price ≤ 0 then false
  else
    let spread_pct := ((last_price - fair_price) / fair_price) * 100
    decide (|spread_pct| ≥ 5)

/-! ## Per-venue ticker processing

MexcFairPriceAlertService._process_mexc_ticker
(src/application/services/mexc_fair_price_alert_service.py lines 99-148) and
GateFairPriceAlertService._process_gate_ticker
(src/application/services/gate_fair_price_alert_service.py lines 85-134).
The shared cooldown set self.alerted_symbols (one per service instance) is
modelled as a Finset String; the hand-offs to _send_alert are collected in a
list, and the scheduled _remove_alert_cooldown background tasks are recorded
as (symbol, delay) pairs. -/

/-- A raw MEXC ticker dict as consumed by _process_mexc_ticker: the symbol
field (default "") and the raw lastPrice / fairPrice values
(default the string "0"). -/
structure MexcTicker where
  symbol : String
  lastPrice : PyVal
  fairPrice : PyVal

/-- The symbol string computed at line 102: ticker.get("symbol", "").replace("_", "/"). -/
def mexcSymbolOf (t : MexcTicker) : String :=
  ⟨pyReplaceChar '_' '/' t.symbol.data⟩

/-- The alert_type string chosen at lines 127-132 of _process_mexc_ticker. -/
def mexcAlertType (last_price fair_price : ℚ) : String :=
  let spread_pct := ((last_price - fair_price) / fair_price) * 100
  if spread_pct > 0 then "🔴 SHORT" else "🟢 LONG"

/-- The alert_type string chosen at lines 113-118 of _process_gate_ticker. -/
def gateAlertType (last_price mark_price : ℚ) : String :=
  let spread_pct := ((last_price - mark_price) / mark_price) * 100
  if spread_pct > 0 then "🔴 SHORT" else "🟢 LONG"

/-- Result of processing one ticker: the updated alerted_symbols set, the
alerts handed to _send_alert as (symbol, alert_type) pairs, and the
scheduled cooldown-removal tasks as (symbol, delay-seconds) pairs. -/
structure ProcessResult where
  alerted : Finset String
  alerts : List (String × String)
  cooldownTasks : List (String × ℕ)

/-- MexcFairPriceAlertService._process_mexc_ticker (lines 99-148). -/
def processMexcTicker (alerted_symbols : Finset String) (t : MexcTicker) : ProcessResult :=
  if mexcSymbolOf t = "" then ⟨alerted_symbols, [], []⟩
  else
    match pyFloat t.lastPrice, pyFloat t.fairPrice with
    | .ok last_price, .ok fair_price =>
      if shouldAlert last_price fair_price then
        if mexcSymbolOf t ∈ alerted_symbols then ⟨alerted_symbols, [], []⟩
        else
          ⟨insert (mexcSymbolOf t) alerted_symbols,
            [(mexcSymbolOf t, mexcAlertType last_price fair_price)],
            [(mexcSymbolOf t, 300)]⟩
      else ⟨alerted_symbols, [], []⟩
    | _, _ => ⟨alerted_symbols, [], []⟩

/-- A raw Gate.io ticker dict as consumed by _process_gate_ticker: the
contract field (ticker.get("contract"), possibly absent) and the raw
last / mark_price values (default the string "0"). -/
structure GateTicker where
  contract : PyVal
  last : PyVal
  mark_price : PyVal

/-- The contract name used by _process_gate_ticker; `if not contract_name`
drops both a missing field and a falsy one. -/
def gateContractNameOf (g : GateTicker) : String :=
  match g.contract with
  | .str s => s
  | _ => ""

/-- GateFairPriceAlertService._process_gate_ticker (lines 85-134). -/
def processGateTicker (alerted_symbols : Finset String) (g : GateTicker) : ProcessResult :=
  if !pyTruthy g.contract then ⟨alerted_symbols, [], []⟩
  else
    match pyFloat g.last, pyFloat g.mark_price with
    | .ok last_price, .ok mark_price =>
      if shouldAlert last_price mark_price then
        if gateContractNameOf g ∈ alerted_symbols then ⟨alerted_symbols, [], []⟩
        else
          ⟨insert (gateContractNameOf g) alerted_symbols,
            [(gateContractNameOf g, gateAlertType last_price mark_price)],
            [(gateContractNameOf g, 120)]⟩
      else ⟨alerted_symbols, [], []⟩
    | _, _ => ⟨alerted_symbols, [], []⟩

/-- BaseFairPriceAlertService._remove_alert_cooldown (lines 343-347): after
the delay, self.alerted_symbols.discard(symbol). -/
def removeAlertCooldown (alerted_symbols : Finset String) (symbol : String) : Finset String :=
  alerted_symbols.erase symbol

/-! ## Helper lemmas about the alert pipeline -/

/-- The spread percentage is positive exactly when the last price exceeds the
reference price, for a positive reference price. -/
theorem spread_pos_iff (last_price fair_price : ℚ) (hf : 0 < fair_price) :
    0 < ((last_price - fair_price) / fair_price) * 100 ↔ fair_price < last_price := by
  have hq : 0 < 100 / fair_price := div_pos (by norm_num) hf
  have key : ((last_price - fair_price) / fair_price) * 100
      = (last_price - fair_price) * (100 / fair_price) := by ring
  rw [key]
  constructor
  · intro h
    by_contra hle
    push_neg at hle
    nlinarith
  · intro h
    exact mul_pos (sub_pos.mpr h) hq

/-- Firing case of _process_mexc_ticker: a qualifying ticker whose symbol is
not cooling down produces exactly one hand-off, inserts the symbol into the
cooldown set and schedules the 300 second removal task. -/
theorem processMexc_fires (S : Finset String) (t : MexcTicker) (last_price fair_price : ℚ)
    (hsym : mexcSymbolOf t ≠ "") (hnm : mexcSymbolOf t ∉ S)
    (hl : pyFloat t.lastPrice = .ok last_price) (hf : pyFloat t.fairPrice = .ok fair_price)
    (ha : shouldAlert last_price fair_price = true) :
    processMexcTicker S t =
      ⟨insert (mexcSymbolOf t) S,
        [(mexcSymbolOf t, mexcAlertType last_price fair_price)],
        [(mexcSymbolOf t, 300)]⟩ := by
  unfold processMexcTicker
  rw [if_neg hsym, hl, hf]
  simp only [ha, if_true]
  rw [if_neg hnm]

/-- Suppression case of _process_mexc_ticker: while the symbol is in the
cooldown set, processing any ticker with that symbol hands off no alert and
leaves the cooldown set unchanged. -/
theorem processMexc_suppressed (S : Finset String) (t : MexcTicker)
    (hmem : mexcSymbolOf t ∈ S) :
    (processMexcTicker S t).alerts = [] ∧ (processMexcTicker S t).alerted = S := by
  unfold processMexcTicker
  split
  · exact ⟨rfl, rfl⟩
  · split
    · rw [ite_self]
      exact ⟨rfl, rfl⟩
    · exact ⟨rfl, rfl⟩

/-- Firing case of _process_gate_ticker. -/
theorem processGate_fires (S : Finset String) (g : GateTicker) (last_price mark_price : ℚ)
    (hc : pyTruthy g.contract = true) (hnm : gateContractNameOf g ∉ S)
    (hl : pyFloat g.last = .ok last_price) (hm : pyFloat g.mark_price = .ok mark_price)
    (ha : shouldAlert last_price mark_price = true) :
    processGateTicker S g =
      ⟨insert (gateContractNameOf g) S,
        [(gateContractNameOf g, gateAlertType last_price mark_price)],
        [(gateContractNameOf g, 120)]⟩ := by
  unfold processGateTicker
  rw [hc]
  simp only [Bool.not_true, Bool.false_eq_true, if_false]
  rw [hl, hm]
  simp only [ha, if_true]
  rw [if_neg hnm]

/-- Suppression case of _process_gate_ticker. -/
theorem processGate_suppressed (S : Finset String) (g : GateTicker)
    (hmem : gateContractNameOf g ∈ S) :
    (processGateTicker S g).alerts = [] ∧ (processGateTicker S g).alerted = S := by
  unfold processGateTicker
  split
  · exact ⟨rfl, rfl⟩
  · split
    · rw [ite_self]
      exact ⟨rfl, rfl⟩
    · exact ⟨rfl, rfl⟩

/-! ## Claim theorems: alert evaluation and cooldown -/

/-- C2: for strictly positive prices the alert decision computes
spread_pct = (last_price - fair_price) / fair_price * 100 and returns true
exactly when its absolute value is at least the configured 5.0 percent
threshold; when either price is not strictly positive it returns false. -/
theorem shouldAlert_threshold_iff (last_price fair_price : ℚ) :
    shouldAlert last_price fair_price = true ↔
      (0 < last_price ∧ 0 < fair_price ∧
        |((last_price - fair_price) / fair_price) * 100| ≥ 5) := by
  unfold shouldAlert
  by_cases h : fair_price ≤ 0 ∨ last_price ≤ 0
  · rw [if_pos h]
    simp only [Bool.false_eq_true, false_iff]
    rintro ⟨hl, hf, -⟩
    rcases h with h | h <;> linarith
  · rw [if_neg h]
    push_neg at h
    simp only [decide_eq_true_eq]
    exact ⟨fun hs => ⟨h.2, h.1, hs⟩, fun hs => hs.2.2⟩

/-- C6: for strictly positive prices, both venue services label the alert
SHORT exactly when last_price exceeds the fair (mark) price and LONG when it
is below it. -/
theorem alert_direction_spec (last_price fair_price : ℚ)
    (hl : 0 < last_price) (hf : 0 < fair_price) :
    (mexcAlertType last_price fair_price = "🔴 SHORT" ↔ fair_price < last_price) ∧
    (last_price < fair_price → mexcAlertType last_price fair_price = "🟢 LONG") ∧
    (gateAlertType last_price fair_price = "🔴 SHORT" ↔ fair_price < last_price) ∧
    (last_price < fair_price → gateAlertType last_price fair_price = "🟢 LONG") := by
  have hpos := spread_pos_iff last_price fair_price hf
  have hshort : mexcAlertType last_price fair_price = "🔴 SHORT" ↔ fair_price < last_price := by
    unfold mexcAlertType
    constructor
    · intro h
      by_contra hc
      rw [if_neg (by rw [← hpos] at hc; simpa using hc)] at h
      exact absurd h (by decide)
    · intro h
      rw [if_pos (hpos.mpr h)]
  have hlong : last_price < fair_price → mexcAlertType last_price fair_price = "🟢 LONG" := by
    intro h
    unfold mexcAlertType
    rw [if_neg]
    intro hpo
    exact absurd (hpos.mp hpo) (not_lt.mpr (le_of_lt h))
  refine ⟨hshort, hlong, ?_, ?_⟩
  · exact hshort
  · exact hlong

/-- Witness for alert_direction_spec at the concrete spec example
last = 100, fair = 95. -/
theorem alert_direction_spec_witness :
    (0 : ℚ) < 100 ∧ (0 : ℚ) < 95 ∧
    ((mexcAlertType 100 95 = "🔴 SHORT" ↔ (95 : ℚ) < 100) ∧
      ((100 : ℚ) < 95 → mexcAlertType 100 95 = "🟢 LONG") ∧
      (gateAlertType 100 95 = "🔴 SHORT" ↔ (95 : ℚ) < 100) ∧
      ((100 : ℚ) < 95 → gateAlertType 100 95 = "🟢 LONG")) :=
  ⟨by norm_num, by norm_num, alert_direction_spec 100 95 (by norm_num) (by norm_num)⟩

/-- C1: per venue service, once an alert fired for an instrument, any further
qualifying snapshot for the same instrument of that venue produces zero
additional hand-offs while the cooldown entry is present, and exactly one
hand-off again once the cooldown entry has been removed. The first snapshot
and the later duplicate are quantified separately (t, t2 for MEXC and g, g2
for Gate) and only required to carry the same instrument identifier. -/
theorem cooldown_single_alert
    (S : Finset String) (t t2 : MexcTicker) (last fair : ℚ)
    (hsym : mexcSymbolOf t ≠ "") (hnm : mexcSymbolOf t ∉ S)
    (hl : pyFloat t.lastPrice = .ok last) (hf : pyFloat t.fairPrice = .ok fair)
    (ha : shouldAlert last fair = true)
    (hsame : mexcSymbolOf t2 = mexcSymbolOf t)
    (last2 fair2 : ℚ)
    (hl2 : pyFloat t2.lastPrice = .ok last2) (hf2 : pyFloat t2.fairPrice = .ok fair2)
    (ha2 : shouldAlert last2 fair2 = true)
    (T : Finset String) (g g2 : GateTicker) (glast gmark : ℚ)
    (hgc : pyTruthy g.contract = true) (hgnm : gateContractNameOf g ∉ T)
    (hgl : pyFloat g.last = .ok glast) (hgm : pyFloat g.mark_price = .ok gmark)
    (hga : shouldAlert glast gmark = true)
    (hgsame : gateContractNameOf g2 = gateContractNameOf g)
    (hgc2 : pyTruthy g2.contract = true)
    (glast2 gmark2 : ℚ)
    (hgl2 : pyFloat g2.last = .ok glast2) (hgm2 : pyFloat g2.mark_price = .ok gmark2)
    (hga2 : shouldAlert glast2 gmark2 = true) :
    ((processMexcTicker S t).alerts.length = 1 ∧
      (processMexcTicker (processMexcTicker S t).alerted t2).alerts = [] ∧
      (processMexcTicker
        (removeAlertCooldown (processMexcTicker S t).alerted (mexcSymbolOf t)) t2).alerts.length
        = 1) ∧
    ((processGateTicker T g).alerts.length = 1 ∧
      (processGateTicker (processGateTicker T g).alerted g2).alerts = [] ∧
      (processGateTicker
        (removeAlertCooldown (processGateTicker T g).alerted (gateContractNameOf g)) g2).alerts.length
        = 1) := by
  have hsym2 : mexcSymbolOf t2 ≠ "" := by rw [hsame]; exact hsym
  have hfire := processMexc_fires S t last fair hsym hnm hl hf ha
  have hgfire := processGate_fires T g glast gmark hgc hgnm hgl hgm hga
  constructor
  · refine ⟨by rw [hfire]; rfl, ?_, ?_⟩
    · have hmem : mexcSymbolOf t2 ∈ (processMexcTicker S t).alerted := by
        rw [hfire, hsame]
        exact Finset.mem_insert_self _ _
      exact (processMexc_suppressed _ t2 hmem).1
    · have hout : mexcSymbolOf t2 ∉
          removeAlertCooldown (processMexcTicker S t).alerted (mexcSymbolOf t) := by
        rw [hsame]
        exact Finset.not_mem_erase _ _
      rw [processMexc_fires _ t2 last2 fair2 hsym2 hout hl2 hf2 ha2]
      rfl
  · refine ⟨by rw [hgfire]; rfl, ?_, ?_⟩
    · have hmem : gateContractNameOf g2 ∈ (processGateTicker T g).alerted := by
        rw [hgfire, hgsame]
        exact Finset.mem_insert_self _ _
      exact (processGate_suppressed _ g2 hmem).1
    · have hout : gateContractNameOf g2 ∉
          removeAlertCooldown (processGateTicker T g).alerted (gateContractNameOf g) := by
        rw [hgsame]
        exact Finset.not_mem_erase _ _
      rw [processGate_fires _ g2 glast2 gmark2 hgc2 hout hgl2 hgm2 hga2]
      rfl

/-- Concrete MEXC ticker used to exercise the cooldown theorem: BTC_USDT with
last 100 and fair 95 (spread +5.26 percent). -/
def tickBTC : MexcTicker := ⟨"BTC_USDT", .float 100, .float 95⟩

/-- Concrete Gate ticker used to exercise the cooldown theorem. -/
def gtickBTC : GateTicker := ⟨.str "BTC_USDT", .float 100, .float 95⟩

/-- The spread of the concrete example (100 against 95) crosses the 5 percent
threshold, so the snapshot qualifies. -/
theorem shouldAlert_100_95 : shouldAlert 100 95 = true := by
  unfold shouldAlert
  rw [if_neg (by norm_num), decide_eq_true_eq]
  have h : ((100 : ℚ) - 95) / 95 * 100 = 100 / 19 := by norm_num
  rw [h, abs_of_nonneg (by norm_num)]
  norm_num

/-- Witness for cooldown_single_alert at the concrete BTC example with an
empty cooldown set on each venue. -/
theorem cooldown_single_alert_witness :
    shouldAlert 100 95 = true ∧
    mexcSymbolOf tickBTC ≠ "" ∧
    pyTruthy gtickBTC.contract = true ∧
    (((processMexcTicker ∅ tickBTC).alerts.length = 1 ∧
        (processMexcTicker (processMexcTicker ∅ tickBTC).alerted tickBTC).alerts = [] ∧
        (processMexcTicker
          (removeAlertCooldown (processMexcTicker ∅ tickBTC).alerted (mexcSymbolOf tickBTC))
          tickBTC).alerts.length = 1) ∧
      ((processGateTicker ∅ gtickBTC).alerts.length = 1 ∧
        (processGateTicker (processGateTicker ∅ gtickBTC).alerted gtickBTC).alerts = [] ∧
        (processGateTicker
          (removeAlertCooldown (processGateTicker ∅ gtickBTC).alerted (gateContractNameOf gtickBTC))
          gtickBTC).alerts.length = 1)) :=
  ⟨shouldAlert_100_95, by decide, rfl,
    cooldown_single_alert ∅ tickBTC tickBTC 100 95
      (by decide) (Finset.not_mem_empty _) rfl rfl shouldAlert_100_95 rfl
      100 95 rfl rfl shouldAlert_100_95
      ∅ gtickBTC gtickBTC 100 95
      rfl (Finset.not_mem_empty _) rfl rfl shouldAlert_100_95 rfl rfl
      100 95 rfl rfl shouldAlert_100_95⟩

/-! ## Network name normalization

CexAggregatorService._normalize_network_name
(src/application/services/cex_aggregator_service.py lines 352-373) and
NetworkPrefixUtils.get_dexscreener_prefix
(src/core/utils/network_prefixes.py lines 10-29). -/

/-- CexAggregatorService._normalize_network_name: substring-based
canonicalization of network names; returns the input unchanged when no
branch matches. -/
def normalizeNetworkName (network : String) : String :=
  let network_lower := pyLowerStr network
  if pyInStr "bnb" network_lower &&
      (pyInStr "smart chain" network_lower || pyInStr "bep20" network_lower ||
        pyInStr "bsc" network_lower) then "BSC"
  else if pyInStr "polygon" network_lower || pyInStr "matic" network_lower then "Polygon"
  else if pyInStr "eth" network_lower &&
      (pyInStr "ethereum" network_lower || pyInStr "erc20" network_lower) then "ETH"
  else if pyInStr "sol" network_lower then "SOL"
  else network

/-- NetworkPrefixUtils.get_dexscreener_prefix: maps a network name to the
DexScreener chain identifier, falling back to bsc. -/
def dexscreenerChainIdOf (network_name : String) : String :=
  let net_name := pyUpperStr network_name
  if pyInStr "ETH" net_name || pyInStr "ERC20" net_name then "ethereum"
  else if pyInStr "POLYGON" net_name || pyInStr "MATIC" net_name then "polygon"
  else if pyInStr "ARB" net_name || pyInStr "ARBITRUM" net_name then "arbitrum"
  else if pyInStr "OP" net_name || pyInStr "OPTIMISM" net_name then "optimism"
  else if pyInStr "BSC" net_name || pyInStr "BNB" net_name then "bsc"
  else if pyInStr "SOL" net_name || pyInStr "SOLANA" net_name then "solana"
  else if pyInStr "TRON" net_name || pyInStr "TRC20" net_name then "tron"
  else "bsc"

/-- C5 counterexample: the cited normalization function does not map the
input bep20 to the canonical identifier of the other two spellings, because
its BSC branch additionally requires the substring bnb; the claim that all
three inputs map to the same canonical identifier is therefore false. -/
theorem normalize_network_bep20_cex :
    normalizeNetworkName "BNB Smart Chain (BEP20)" = "BSC" ∧
    normalizeNetworkName "BSC" = "BSC" ∧
    normalizeNetworkName "bep20" = "bep20" ∧
    normalizeNetworkName "bep20" ≠ normalizeNetworkName "BSC" := by decide

/-- C5 amended: _normalize_network_name sends BNB Smart Chain (BEP20) and
BSC to the same canonical identifier BSC but returns bep20 unchanged; all
three spellings agree on one identifier only under the DexScreener lookup
get_dexscreener_prefix, which sends each of them to bsc. -/
theorem normalize_network_amended :
    normalizeNetworkName "BNB Smart Chain (BEP20)" = normalizeNetworkName "BSC" ∧
    normalizeNetworkName "bep20" = "bep20" ∧
    dexscreenerChainIdOf "BNB Smart Chain (BEP20)" = "bsc" ∧
    dexscreenerChainIdOf "BSC" = "bsc" ∧
    dexscreenerChainIdOf "bep20" = "bsc" := by decide

/-! ## MEXC symbol normalization

CexAggregatorService._normalize_mexc_symbol
(src/application/services/cex_aggregator_service.py lines 125-130):
symbol.strip().replace("-", "_").replace("/", "_").upper(), then append
_USDT when no underscore is present. -/

/-- The list-level normalization underlying _normalize_mexc_symbol. -/
def normalizeMexcSymbolList (s : List Char) : List Char :=
  if '_' ∈ (pyReplaceChar '/' '_' (pyReplaceChar '-' '_' (pyStripList s))).map Char.toUpper
  then (pyReplaceChar '/' '_' (pyReplaceChar '-' '_' (pyStripList s))).map Char.toUpper
  else ((pyReplaceChar '/' '_' (pyReplaceChar '-' '_' (pyStripList s))).map Char.toUpper)
    ++ ['_', 'U', 'S', 'D', 'T']

/-- CexAggregatorService._normalize_mexc_symbol. -/
def normalizeMexcSymbol (symbol : String) : String :=
  ⟨normalizeMexcSymbolList symbol.data⟩

/-! Character-level facts used to reason about the normalization. -/

/-- Equality of characters is equality of their code points. -/
theorem char_eq_iff_toNat (c d : Char) : c = d ↔ c.toNat = d.toNat :=
  ⟨fun h => h ▸ rfl, fun h => Char.ext (UInt32.toNat.inj h)⟩

/-- Char.ofNat of a valid scalar below the surrogate range keeps its code. -/
theorem char_toNat_ofNat_valid (n : ℕ) (h : n < 55296) : (Char.ofNat n).toNat = n := by
  have hv : Nat.isValidChar n := Or.inl h
  simp only [Char.ofNat, dif_pos hv, Char.ofNatAux, Char.toNat]
  simp [UInt32.toNat]

/-- Char.toUpper either fixes the character or shifts a lowercase letter
down by 32 into the uppercase range. -/
theorem toUpper_toNat_cases (c : Char) :
    c.toUpper = c ∨ (97 ≤ c.toNat ∧ c.toNat ≤ 122 ∧ c.toUpper.toNat = c.toNat - 32) := by
  simp only [Char.toUpper]
  by_cases h : c.toNat ≥ 97 ∧ c.toNat ≤ 122
  · right
    refine ⟨h.1, h.2, ?_⟩
    rw [if_pos h]
    exact char_toNat_ofNat_valid _ (by omega)
  · left
    rw [if_neg h]

/-- Char.toUpper is idempotent. -/
theorem toUpper_toUpper (c : Char) : c.toUpper.toUpper = c.toUpper := by
  rcases toUpper_toNat_cases c.toUpper with h | ⟨h1, h2, h3⟩
  · exact h
  · rcases toUpper_toNat_cases c with h' | ⟨g1, g2, g3⟩
    · exfalso
      rw [h'] at h1 h2
      have hx : c.toUpper.toNat = c.toNat - 32 := by
        simp only [Char.toUpper]
        rw [if_pos ⟨h1, h2⟩]
        exact char_toNat_ofNat_valid _ (by omega)
      rw [h'] at hx
      omega
    · exact absurd h1 (by omega)

/-- isPySpace in terms of code points. -/
theorem isPySpace_iff (c : Char) :
    isPySpace c = true ↔
      (c.toNat = 32 ∨ c.toNat = 9 ∨ c.toNat = 10 ∨ c.toNat = 13 ∨
        c.toNat = 11 ∨ c.toNat = 12) := by
  unfold isPySpace
  simp only [Bool.or_eq_true, decide_eq_true_eq, char_eq_iff_toNat,
    show (' ' : Char).toNat = 32 from rfl, show ('\t' : Char).toNat = 9 from rfl,
    show ('\n' : Char).toNat = 10 from rfl, show ('\x0d' : Char).toNat = 13 from rfl,
    show ('\x0b' : Char).toNat = 11 from rfl, show ('\x0c' : Char).toNat = 12 from rfl]
  tauto

/-- Uppercasing does not change whether a character is stripped whitespace. -/
theorem isPySpace_toUpper (c : Char) : isPySpace c.toUpper = isPySpace c := by
  rcases toUpper_toNat_cases c with h | ⟨h1, h2, h3⟩
  · rw [h]
  · have hc : isPySpace c = false := by
      cases h' : isPySpace c
      · rfl
      · exact absurd ((isPySpace_iff c).mp h') (by omega)
    have hu : isPySpace c.toUpper = false := by
      cases h' : isPySpace c.toUpper
      · rfl
      · exact absurd ((isPySpace_iff c.toUpper).mp h') (by omega)
    rw [hc, hu]

/-! List lemmas about dropWhile, used to reason about str.strip. -/

/-- The head surviving a dropWhile does not satisfy the predicate. -/
theorem dropWhile_head?_false {α : Type} (p : α → Bool) :
    ∀ (l : List α) (x : α), (l.dropWhile p).head? = some x → p x = false
  | [], x => by simp [List.dropWhile]
  | a :: as, x => by
    rw [List.dropWhile_cons]
    split
    · exact dropWhile_head?_false p as x
    · intro h
      rename_i hpa
      have hax : a = x := by simpa using h
      rw [← hax]
      cases hb : p a
      · rfl
      · exact absurd hb hpa

/-- dropWhile is the identity when the head does not satisfy the predicate. -/
theorem dropWhile_eq_self_of_head {α : Type} (p : α → Bool) (l : List α)
    (h : ∀ x, l.head? = some x → p x = false) : l.dropWhile p = l := by
  cases l with
  | nil => rfl
  | cons a as =>
    rw [List.dropWhile_cons, h a rfl]
    simp

/-- dropWhile only removes a head segment, so a nonempty result keeps the
last element. -/
theorem dropWhile_getLast? {α : Type} (p : α → Bool) :
    ∀ (l : List α), l.dropWhile p ≠ [] → (l.dropWhile p).getLast? = l.getLast?
  | [] => by simp
  | a :: as => by
    rw [List.dropWhile_cons]
    split
    · intro hne
      have has : as ≠ [] := by
        intro h0
        subst h0
        simp [List.dropWhile] at hne
      rw [dropWhile_getLast? p as hne]
      cases as with
      | nil => exact absurd rfl has
      | cons b bs => rw [List.getLast?_cons_cons]
    · intro _
      rfl

/-- getLast? commutes with map. -/
theorem getLast?_map {α β : Type} (f : α → β) (l : List α) :
    (l.map f).getLast? = Option.map f l.getLast? := by
  rw [← List.head?_reverse, ← List.map_reverse, List.head?_map, List.head?_reverse]

/-- A map that fixes every element of a list is the identity on it. -/
theorem map_id_of_fixed {α : Type} (f : α → α) :
    ∀ (l : List α), (∀ c ∈ l, f c = c) → l.map f = l
  | [], _ => rfl
  | a :: as, h => by
    rw [List.map_cons, h a (by simp), map_id_of_fixed f as (fun c hc => h c (by simp [hc]))]

/-- The head of a stripped string is not whitespace. -/
theorem pyStrip_head? (l : List Char) (x : Char)
    (h : (pyStripList l).head? = some x) : isPySpace x = false := by
  unfold pyStripList at h
  rw [List.head?_reverse] at h
  have hne : (l.dropWhile isPySpace).reverse.dropWhile isPySpace ≠ [] := by
    intro h0
    rw [h0] at h
    simp at h
  rw [dropWhile_getLast? _ _ hne, List.getLast?_reverse] at h
  exact dropWhile_head?_false _ _ _ h

/-- The last character of a stripped string is not whitespace. -/
theorem pyStrip_getLast? (l : List Char) (x : Char)
    (h : (pyStripList l).getLast? = some x) : isPySpace x = false := by
  unfold pyStripList at h
  rw [List.getLast?_reverse] at h
  exact dropWhile_head?_false _ _ _ h

/-- strip is the identity on a string whose ends are not whitespace. -/
theorem pyStrip_fixed (l : List Char)
    (hh : ∀ x, l.head? = some x → isPySpace x = false)
    (hl : ∀ x, l.getLast? = some x → isPySpace x = false) : pyStripList l = l := by
  unfold pyStripList
  rw [dropWhile_eq_self_of_head _ l hh]
  rw [dropWhile_eq_self_of_head _ l.reverse
    (fun x hx => hl x (by rwa [List.head?_reverse] at hx))]
  exact List.reverse_reverse l

/-- Every character of the normalized symbol is fixed by toUpper and is
neither a dash (code 45) nor a slash (code 47). -/
theorem mem_norm_chars (s : List Char) :
    ∀ c ∈ normalizeMexcSymbolList s,
      c.toUpper = c ∧ c.toNat ≠ 45 ∧ c.toNat ≠ 47 := by
  intro c hc
  have hmain : ∀ d ∈ (pyReplaceChar '/' '_'
      (pyReplaceChar '-' '_' (pyStripList s))).map Char.toUpper,
      d.toUpper = d ∧ d.toNat ≠ 45 ∧ d.toNat ≠ 47 := by
    intro d hd
    obtain ⟨e, he, rfl⟩ := List.mem_map.mp hd
    obtain ⟨f, hf, rfl⟩ := List.mem_map.mp he
    obtain ⟨g, hg, rfl⟩ := List.mem_map.mp hf
    refine ⟨toUpper_toUpper _, ?_⟩
    have hne : (if (if g = '-' then '_' else g) = '/' then '_'
        else if g = '-' then '_' else g).toNat ≠ 45 ∧
        (if (if g = '-' then '_' else g) = '/' then '_'
        else if g = '-' then '_' else g).toNat ≠ 47 := by
      by_cases h1 : (if g = '-' then '_' else g) = '/'
      · rw [if_pos h1]
        exact ⟨by decide, by decide⟩
      · rw [if_neg h1]
        by_cases h2 : g = '-'
        · rw [if_pos h2]
          exact ⟨by decide, by decide⟩
        · rw [if_neg h2]
          constructor
          · intro h45
            exact h2 ((char_eq_iff_toNat g '-').mpr (by rw [h45]; rfl))
          · intro h47
            rw [if_neg h2] at h1
            exact h1 ((char_eq_iff_toNat g '/').mpr (by rw [h47]; rfl))
    rcases toUpper_toNat_cases (if (if g = '-' then '_' else g) = '/' then '_'
        else if g = '-' then '_' else g) with h | ⟨u1, u2, u3⟩
    · rw [h]
      exact hne
    · rw [u3]
      omega
  unfold normalizeMexcSymbolList at hc
  split at hc
  · exact hmain c hc
  · rcases List.mem_append.mp hc with h | h
    · exact hmain c h
    · fin_cases h <;> exact ⟨by decide, by decide, by decide⟩

/-- The normalized symbol always contains an underscore. -/
theorem norm_contains_underscore (s : List Char) :
    '_' ∈ normalizeMexcSymbolList s := by
  unfold normalizeMexcSymbolList
  split
  · assumption
  · exact List.mem_append_right _ (by decide)

/-- The mapped replace functions and toUpper preserve non-whitespace. -/
theorem norm_step_not_space (g : Char) (hg : isPySpace g = false) :
    isPySpace ((if (if g = '-' then '_' else g) = '/' then '_'
      else if g = '-' then '_' else g).toUpper) = false := by
  rw [isPySpace_toUpper]
  by_cases h1 : (if g = '-' then '_' else g) = '/'
  · rw [if_pos h1]
    decide
  · rw [if_neg h1]
    by_cases h2 : g = '-'
    · rw [if_pos h2]
      decide
    · rw [if_neg h2]
      exact hg

/-- The first character of the normalized symbol is not whitespace. -/
theorem norm_head_not_space (s : List Char) :
    ∀ x, (normalizeMexcSymbolList s).head? = some x → isPySpace x = false := by
  intro x hx
  have hcore : ∀ y, ((pyReplaceChar '/' '_'
      (pyReplaceChar '-' '_' (pyStripList s))).map Char.toUpper).head? = some y →
      isPySpace y = false := by
    intro y hy
    unfold pyReplaceChar at hy
    rw [List.head?_map, List.head?_map, List.head?_map] at hy
    cases hh : (pyStripList s).head? with
    | none => rw [hh] at hy; simp at hy
    | some g =>
      rw [hh] at hy
      simp only [Option.map_some'] at hy
      have hy' : y = (if (if g = '-' then '_' else g) = '/' then '_'
          else if g = '-' then '_' else g).toUpper := by
        injection hy.symm
      rw [hy']
      exact norm_step_not_space g (pyStrip_head? s g hh)
  unfold normalizeMexcSymbolList at hx
  split at hx
  · exact hcore x hx
  · rw [List.head?_append] at hx
    cases hh : ((pyReplaceChar '/' '_'
        (pyReplaceChar '-' '_' (pyStripList s))).map Char.toUpper).head? with
    | none =>
      rw [hh] at hx
      simp only [Option.none_or] at hx
      have : x = '_' := by injection hx.symm
      rw [this]
      decide
    | some y =>
      rw [hh] at hx
      simp only [Option.or_some] at hx
      have : x = y := by injection hx.symm
      rw [this]
      exact hcore y hh

/-- The last character of the normalized symbol is not whitespace. -/
theorem norm_getLast_not_space (s : List Char) :
    ∀ x, (normalizeMexcSymbolList s).getLast? = some x → isPySpace x = false := by
  intro x hx
  have hcore : ∀ y, ((pyReplaceChar '/' '_'
      (pyReplaceChar '-' '_' (pyStripList s))).map Char.toUpper).getLast? = some y →
      isPySpace y = false := by
    intro y hy
    unfold pyReplaceChar at hy
    rw [getLast?_map, getLast?_map, getLast?_map] at hy
    cases hh : (pyStripList s).getLast? with
    | none => rw [hh] at hy; simp at hy
    | some g =>
      rw [hh] at hy
      simp only [Option.map_some'] at hy
      have hy' : y = (if (if g = '-' then '_' else g) = '/' then '_'
          else if g = '-' then '_' else g).toUpper := by
        injection hy.symm
      rw [hy']
      exact norm_step_not_space g (pyStrip_getLast? s g hh)
  unfold normalizeMexcSymbolList at hx
  split at hx
  · exact hcore x hx
  · rw [List.getLast?_append] at hx
    have : (['_', 'U', 'S', 'D', 'T'] : List Char).getLast? = some 'T' := by decide
    rw [this] at hx
    simp only [Option.or_some] at hx
    have hxT : x = 'T' := by injection hx.symm
    rw [hxT]
    decide

/-- C9: _normalize_mexc_symbol is idempotent, its output always contains an
underscore, and every character of the output is fixed by uppercasing. -/
theorem normalize_mexc_symbol_idem (s : String) :
    normalizeMexcSymbol (normalizeMexcSymbol s) = normalizeMexcSymbol s ∧
    '_' ∈ (normalizeMexcSymbol s).data ∧
    ∀ c ∈ (normalizeMexcSymbol s).data, c.toUpper = c := by
  have hdata : (normalizeMexcSymbol s).data = normalizeMexcSymbolList s.data := rfl
  have hchars := mem_norm_chars s.data
  have hN : normalizeMexcSymbolList (normalizeMexcSymbolList s.data)
      = normalizeMexcSymbolList s.data := by
    have hstrip : pyStripList (normalizeMexcSymbolList s.data)
        = normalizeMexcSymbolList s.data :=
      pyStrip_fixed _ (norm_head_not_space s.data) (norm_getLast_not_space s.data)
    have hrep1 : pyReplaceChar '-' '_' (normalizeMexcSymbolList s.data)
        = normalizeMexcSymbolList s.data := by
      apply map_id_of_fixed
      intro c hc
      rw [if_neg]
      intro h
      exact (hchars c hc).2.1 (by rw [h]; rfl)
    have hrep2 : pyReplaceChar '/' '_' (normalizeMexcSymbolList s.data)
        = normalizeMexcSymbolList s.data := by
      apply map_id_of_fixed
      intro c hc
      rw [if_neg]
      intro h
      exact (hchars c hc).2.2 (by rw [h]; rfl)
    have hup : (normalizeMexcSymbolList s.data).map Char.toUpper
        = normalizeMexcSymbolList s.data :=
      map_id_of_fixed _ _ (fun c hc => (hchars c hc).1)
    conv_lhs => rw [normalizeMexcSymbolList]
    rw [hstrip, hrep1, hrep2, hup]
    rw [if_pos (norm_contains_underscore s.data)]
  refine ⟨?_, ?_, ?_⟩
  · show (⟨normalizeMexcSymbolList (normalizeMexcSymbol s).data⟩ : String)
      = ⟨normalizeMexcSymbolList s.data⟩
    rw [hdata, hN]
  · rw [hdata]
    exact norm_contains_underscore s.data
  · rw [hdata]
    intro c hc
    exact (hchars c hc).1

/-! ## Monitoring loop

BaseFairPriceAlertService.run_monitoring_loop
(src/application/services/base_fair_price_alert_service.py lines 349-391).
One iteration of the while body is modelled as a function of the current
consecutive_failures counter, the observed is_websocket_connected() value and
the value reconnect_websocket() would return if it were awaited. The result
records the new counter, whether a reconnect attempt was actually made in the
iteration, and which sleep the iteration performs. -/

/-- The sleep performed at the end of one monitoring-loop iteration. -/
inductive LoopSleep : Type where
  | coolOff60 : LoopSleep
  | retryAfter30 : LoopSleep
  | checkSleep10 : LoopSleep
deriving DecidableEq

/-- One iteration of the run_monitoring_loop while body (lines 356-381). -/
def monitorIter (consecutive_failures : ℕ) (connected reconnectOk : Bool) :
    ℕ × Bool × LoopSleep :=
  if !connected then
    if consecutive_failures + 1 ≥ 5 then (0, false, .coolOff60)
    else if !reconnectOk then (consecutive_failures + 1, true, .retryAfter30)
    else (0, true, .checkSleep10)
  else (consecutive_failures, false, .checkSleep10)

/-- Run the monitoring loop over a list of (connected, reconnectOk)
observations, logging for every iteration whether a reconnect was attempted
and which sleep was taken. -/
def monitorRun : ℕ → List (Bool × Bool) → ℕ × List (Bool × LoopSleep)
  | f, [] => (f, [])
  | f, (c, r) :: rest =>
    let step := monitorIter f c r
    let tail := monitorRun step.1 rest
    (tail.1, (step.2.1, step.2.2) :: tail.2)

/-- C7 counterexample: starting from a zero counter with the connection down
and every reconnect failing, the 60 second cool-off fires on the fifth
iteration, at which point only four reconnect attempts have been made and
the fifth iteration itself makes no attempt; the extended delay therefore
does not come after five consecutive failed reconnect attempts. -/
theorem monitor_cooloff_after_four_cex :
    monitorRun 0 (List.replicate 5 (false, false)) =
      (0, [(true, .retryAfter30), (true, .retryAfter30), (true, .retryAfter30),
        (true, .retryAfter30), (false, .coolOff60)]) ∧
    (monitorRun 0 (List.replicate 5 (false, false))).2.countP (fun x => x.1) = 4 := by
  constructor <;> rfl

/-- C7 amended: the counter counts disconnected observations, so after four
consecutive failed reconnect attempts the next disconnected check (the fifth
consecutive failure) performs the extended 60 second cool-off instead of the
normal 30 second retry delay, makes no reconnect attempt, and resets the
counter to zero regardless of any reconnect outcome; independently, a
successful reconnect resets the counter to zero. -/
theorem monitor_cooloff_amended :
    (∀ r : Bool, monitorRun 0 (List.replicate 4 (false, false) ++ [(false, r)]) =
      (0, [(true, .retryAfter30), (true, .retryAfter30), (true, .retryAfter30),
        (true, .retryAfter30), (false, .coolOff60)])) ∧
    (∀ f r, monitorIter (f + 4) false r = (0, false, .coolOff60)) ∧
    (∀ f, monitorIter f false true =
      if f + 1 ≥ 5 then (0, false, .coolOff60) else (0, true, .checkSleep10)) := by
  refine ⟨?_, ?_, ?_⟩
  · intro r
    cases r <;> rfl
  · intro f r
    have h : f + 4 + 1 ≥ 5 := by omega
    simp [monitorIter, h]
  · intro f
    by_cases h : f + 1 ≥ 5
    · simp [monitorIter, h]
    · simp [monitorIter, h]

/-! ## WebSocket reconnect

MexcWebSocketClient.reconnect
(src/infrastructure/mexc/websocket_client.py lines 202-225) and
GateWebSocketClient.reconnect
(src/infrastructure/gate/websocket_client.py lines 91-102).
Python return values that may be None are modelled as Option Bool
(None becomes Option.none). The transport handshake outcome of connect() is
abstracted as a boolean oracle, as is the success of the subscription send. -/

/-- State of the MEXC WebSocket client relevant to reconnect: the
is_connected flag, the registered subscription channels, and whether a
_reconnect_loop background task is currently pending. -/
structure MexcWsState where
  is_connected : Bool
  subscriptions : List String
  reconnect_task_active : Bool

/-- MexcWebSocketClient.reconnect: if a reconnect task is already pending it
returns immediately, otherwise it schedules the background _reconnect_loop
via asyncio.create_task and returns. In both cases the coroutine returns
None; reconnection and re-subscription happen later inside the background
task, not before reconnect returns. -/
def mexcWsReconnect (st : MexcWsState) : MexcWsState × Option Bool :=
  if st.reconnect_task_active then (st, Option.none)
  else ({ st with reconnect_task_active := true }, Option.none)

/-- MexcFairPriceAlertService.reconnect_websocket (lines 49-51): returns
await self.ws_client.reconnect(), that is, the None above. -/
def mexcServiceReconnectWebsocket (st : MexcWsState) : MexcWsState × Option Bool :=
  mexcWsReconnect st

/-- Python truthiness of an Optional[bool], as tested by the monitoring loop
with `if not await self.reconnect_websocket()`. -/
def pyTruthyOptBool : Option Bool → Bool
  | Option.none => false
  | some b => b

/-- State of the Gate WebSocket client relevant to reconnect: the
is_connected flag and whether a futures.tickers callback is registered in
message_handlers. -/
structure GateWsState where
  is_connected : Bool
  hasTickersHandler : Bool

/-- GateWebSocketClient.subscribe_tickers (lines 104-128): fails when not
connected, otherwise sends the subscription message (sendOk abstracts the
send not raising), registers the callback and reports success. -/
def gateSubscribeTickers (st : GateWsState) (sendOk : Bool) : GateWsState × Bool :=
  if !st.is_connected then (st, false)
  else if sendOk then ({ st with hasTickersHandler := true }, true)
  else (st, false)

/-- GateWebSocketClient.reconnect (lines 91-102): disconnect, connect
(outcome abstracted by connectOk, which also becomes the new is_connected
flag), return False when the connect failed; otherwise re-issue the
previously registered futures.tickers subscription, ignoring its own
success, and return True. The third component records whether a
re-subscription was attempted before returning. -/
def gateWsReconnect (st : GateWsState) (connectOk sendOk : Bool) :
    GateWsState × Option Bool × Bool :=
  let st₂ : GateWsState := { st with is_connected := connectOk }
  if !connectOk then (st₂, some false, false)
  else if st₂.hasTickersHandler then
    ((gateSubscribeTickers st₂ sendOk).1, some true, true)
  else (st₂, some true, false)

/-- C4 counterexample: the MEXC reconnect does not return a boolean at all;
on a disconnected client with an active tickers subscription it hands back
None (so the caller in reconnect_websocket yields a falsy None to the
monitoring loop), and the transport has not been re-established when it
returns. -/
theorem mexc_reconnect_returns_none_cex :
    (mexcWsReconnect ⟨false, ["push.tickers"], false⟩).2 = Option.none ∧
    (∀ b : Bool, (mexcWsReconnect ⟨false, ["push.tickers"], false⟩).2 ≠ some b) ∧
    pyTruthyOptBool (mexcServiceReconnectWebsocket ⟨false, ["push.tickers"], false⟩).2 = false ∧
    (mexcWsReconnect ⟨false, ["push.tickers"], false⟩).1.is_connected = false := by
  refine ⟨rfl, ?_, rfl, rfl⟩
  intro b h
  cases h

/-- C4 amended: GateWebSocketClient.reconnect returns a boolean, reports
success exactly when the transport handshake succeeded, and before
reporting success it has re-established the transport and re-issued the
previously registered futures.tickers subscription when one was active
(without checking the re-issue for success); MexcWebSocketClient.reconnect
instead always returns None, delegating reconnection and re-subscription to
a background task, so its caller reconnect_websocket always yields a falsy
value to the monitoring loop. -/
theorem reconnect_amended (st : GateWsState) (connectOk sendOk : Bool) :
    (∃ b : Bool, (gateWsReconnect st connectOk sendOk).2.1 = some b) ∧
    ((gateWsReconnect st connectOk sendOk).2.1 = some true ↔ connectOk = true) ∧
    ((gateWsReconnect st connectOk sendOk).2.1 = some true →
      (gateWsReconnect st connectOk sendOk).1.is_connected = true ∧
      (st.hasTickersHandler = true → (gateWsReconnect st connectOk sendOk).2.2 = true)) ∧
    (∀ ms : MexcWsState, (mexcWsReconnect ms).2 = Option.none ∧
      pyTruthyOptBool (mexcServiceReconnectWebsocket ms).2 = false) := by
  refine ⟨?_, ?_, ?_, ?_⟩
  · unfold gateWsReconnect
    cases connectOk with
    | false => exact ⟨false, rfl⟩
    | true =>
      by_cases h : st.hasTickersHandler <;> simp [h]
  · unfold gateWsReconnect
    cases connectOk with
    | false => simp
    | true =>
      by_cases h : st.hasTickersHandler <;> simp [h]
  · intro hsucc
    have hc : connectOk = true := by
      revert hsucc
      unfold gateWsReconnect
      cases connectOk with
      | false => simp
      | true => simp
    subst hc
    unfold gateWsReconnect
    by_cases h : st.hasTickersHandler
    · simp [h, gateSubscribeTickers]
      split <;> rfl
    · simp [h]
  · intro ms
    constructor
    · unfold mexcWsReconnect
      split <;> rfl
    · unfold mexcServiceReconnectWebsocket mexcWsReconnect
      split <;> rfl

/-- Witness for reconnect_amended on a concrete state where the reconnect
succeeds and a subscription was active. -/
theorem reconnect_amended_witness :
    (∃ b : Bool, (gateWsReconnect ⟨false, true⟩ true true).2.1 = some b) ∧
    ((gateWsReconnect ⟨false, true⟩ true true).2.1 = some true ↔ true = true) ∧
    ((gateWsReconnect ⟨false, true⟩ true true).2.1 = some true →
      (gateWsReconnect ⟨false, true⟩ true true).1.is_connected = true ∧
      ((⟨false, true⟩ : GateWsState).hasTickersHandler = true →
        (gateWsReconnect ⟨false, true⟩ true true).2.2 = true)) ∧
    (∀ ms : MexcWsState, (mexcWsReconnect ms).2 = Option.none ∧
      pyTruthyOptBool (mexcServiceReconnectWebsocket ms).2 = false) :=
  reconnect_amended ⟨false, true⟩ true true

/-! ## REST boundary

HttpClient.get_json (src/infrastructure/http_client.py lines 55-109),
extract_first_or_dict (src/infrastructure/mexc/dtos.py lines 80-95) and
MexcClient.fetch_futures_ticker (src/infrastructure/mexc/client.py
lines 79-98). A raised Python exception is an Except.error carrying the
exception text; the tri-state result is (ok, errorMessage, payload). -/

/-- The possible upstream outcomes of one aiohttp GET: a response with a
status code, raw body text and its JSON parse (none models a decode
failure), or one of the caught exception classes. -/
inductive HttpOutcome : Type where
  | resp (status : ℕ) (bodyText : String) (parsed : Option PyVal) : HttpOutcome
  | timeout : HttpOutcome
  | clientErr (msg : String) : HttpOutcome
  | otherErr (msg : String) : HttpOutcome

/-- The tri-state result returned by every connector call. -/
abbrev TriState (α : Type) : Type := Bool × String × Option α

/-- HttpClient.get_json: raises HttpClientError when the session has not
been started (line 72-73 sits before the try block); afterwards every
non-200 status, JSON decode failure, timeout, client error or unexpected
exception is converted into (False, message, None) and a parsed 200
response into (True, empty, data). -/
def getJson (sessionStarted : Bool) (o : HttpOutcome) : Except String (TriState PyVal) :=
  if !sessionStarted then .error "HttpClientError: HTTP session not started"
  else
    match o with
    | .resp status bodyText parsed =>
      if status ≠ 200 then
        .ok (false, "HTTP " ++ toString status ++ ": " ++ (bodyText.take 200), Option.none)
      else
        match parsed with
        | some data => .ok (true, "", some data)
        | Option.none => .ok (false, "JSON decode error", Option.none)
    | .timeout => .ok (false, "Request timeout", Option.none)
    | .clientErr m => .ok (false, "Client error: " ++ m, Option.none)
    | .otherErr m => .ok (false, "Unexpected error: " ++ m, Option.none)

/-- extract_first_or_dict: a dict is returned as is, the first element of a
non-empty list is returned when it is a dict, anything else gives None. -/
def extractFirstOrDict (v : PyVal) : Option (List (String × PyVal)) :=
  match v with
  | .dict d => some d
  | .list (.dict d :: _) => some d
  | _ => Option.none

/-- MexcClient.fetch_futures_ticker, as a function of the get_json result it
awaits (an exception from get_json propagates). On a truthy payload the code
evaluates data.get("data"), which raises AttributeError when the decoded
payload is not a dict; otherwise the extracted ticker is returned tri-state,
with Python bool(ticker_data) treating an empty dict as falsy. -/
def fetchFuturesTicker (g : Except String (TriState PyVal)) :
    Except String (TriState (List (String × PyVal))) :=
  match g with
  | .error e => .error e
  | .ok (ok, err, data) =>
    if !ok || !(match data with | some v => pyTruthy v | Option.none => false) then
      .ok (false, err, Option.none)
    else
      match data with
      | some (.dict d) =>
        match extractFirstOrDict (pyDictGet d "data") with
        | some td =>
          if td.isEmpty then .ok (false, "no data", some td)
          else .ok (true, "", some td)
        | Option.none => .ok (false, "no data", Option.none)
      | _ => .error "AttributeError: object has no attribute get"

/-- Is an Except value a normal return (no exception raised)? -/
def isOkE {ε α : Type} : Except ε α → Bool
  | .ok _ => true
  | .error _ => false

/-- C8 counterexample: a 200 response whose JSON decodes to a non-empty
array makes fetch_futures_ticker raise AttributeError past the connector
boundary instead of returning the tri-state result; so not every upstream
response, malformed payloads included, is converted to (ok, error,
payload). -/
theorem fetch_ticker_raises_cex :
    fetchFuturesTicker (getJson true (.resp 200 "[1]" (some (.list [.int 1]))))
      = .error "AttributeError: object has no attribute get" ∧
    isOkE (fetchFuturesTicker (getJson true (.resp 200 "[1]" (some (.list [.int 1]))))) = false ∧
    isOkE (getJson false .timeout) = false := by
  refine ⟨rfl, rfl, rfl⟩

/-- C8 amended: once the session is started, get_json never raises; every
upstream status, decode, timeout or client failure is converted to the
tri-state result. Calling get_json before start raises HttpClientError.
fetch_futures_ticker returns the tri-state result whenever the decoded
payload is a dict, or whenever the call failed or produced a falsy payload;
it raises only for a truthy non-dict payload such as a non-empty array. -/
theorem http_tristate_amended :
    (∀ o : HttpOutcome, isOkE (getJson true o) = true) ∧
    (∀ o : HttpOutcome, ∃ e, getJson false o = .error e) ∧
    (∀ ok : Bool, ∀ err : String, ∀ d : List (String × PyVal),
      isOkE (fetchFuturesTicker (.ok (ok, err, some (.dict d)))) = true) ∧
    (∀ ok : Bool, ∀ err : String,
      isOkE (fetchFuturesTicker (.ok (ok, err, Option.none))) = true) := by
  refine ⟨?_, ?_, ?_, ?_⟩
  · intro o
    unfold getJson
    cases o with
    | resp status bodyText parsed =>
      by_cases h : status ≠ 200
      · simp [h, isOkE]
      · cases parsed <;> simp [h, isOkE]
    | timeout => rfl
    | clientErr m => rfl
    | otherErr m => rfl
  · intro o
    exact ⟨_, rfl⟩
  · intro ok err d
    unfold fetchFuturesTicker
    cases ok with
    | false => rfl
    | true =>
      by_cases h : pyTruthy (.dict d)
      · simp only [h]
        cases hx : extractFirstOrDict (pyDictGet d "data") with
        | none => simp [hx, isOkE]
        | some td =>
          by_cases ht : td.isEmpty <;> simp [hx, ht, isOkE]
      · simp [h, isOkE]
  · intro ok err
    cases ok <;> rfl

/-! ## Fixed-point number formatting

A model of the Python format specifications ",.0f", ",.2f", ".4f", ".6f"
and ".8f" used by _fmt_money and BuyLimitCalculator: round half to even at
the requested number of decimals, then print with an optional thousands
grouping of the integer part. -/

/-- Round half to even to the nearest integer. -/
def roundHalfEven (x : ℚ) : ℤ :=
  if x - ⌊x⌋ < 1/2 then ⌊x⌋
  else if x - ⌊x⌋ > 1/2 then ⌊x⌋ + 1
  else if ⌊x⌋ % 2 = 0 then ⌊x⌋ else ⌊x⌋ + 1

/-- Insert a comma after every third character of a least-significant-first
digit list. -/
def group3 : List Char → List Char
  | [] => []
  | [a] => [a]
  | [a, b] => [a, b]
  | [a, b, c] => [a, b, c]
  | a :: b :: c :: d :: rest => a :: b :: c :: ',' :: group3 (d :: rest)

/-- Decimal digits of a natural number, most significant first. -/
def natDigits (n : ℕ) : List Char := Nat.toDigits 10 n

/-- Zero-pad a digit list on the left to the requested width. -/
def padLeftZeros (k : ℕ) (ds : List Char) : List Char :=
  List.replicate (k - ds.length) '0' ++ ds

/-- Python format of x with the given number of decimals, optionally with a
thousands separator in the integer part. -/
def fmtFixed (x : ℚ) (decimals : ℕ) (grouped : Bool) : String :=
  let m := (roundHalfEven (|x| * (10 : ℚ) ^ decimals)).toNat
  let ipStr : List Char :=
    if grouped then (group3 (natDigits (m / 10 ^ decimals)).reverse).reverse
    else natDigits (m / 10 ^ decimals)
  let fpStr : List Char :=
    if decimals = 0 then []
    else '.' :: padLeftZeros decimals (natDigits (m % 10 ^ decimals))
  ⟨(if x < 0 then ['-'] else []) ++ ipStr ++ fpStr⟩

/-! ## Buy limit calculation

BuyLimitCalculator.calculate_buy_limit_from_data
(src/core/utils/buy_limit_calculator.py lines 10-52). -/

/-- isinstance(x, (int, float)); Python bool is a subclass of int. -/
def pyIsNumber : PyVal → Bool
  | .int _ => true
  | .float _ => true
  | .boolean _ => true
  | _ => false

/-- Numeric value of an int/float/bool Python value. -/
def pyNumVal : PyVal → ℚ
  | .int n => (n : ℚ)
  | .float q => q
  | .boolean b => if b then 1 else 0
  | _ => 0

/-- BuyLimitCalculator.calculate_buy_limit_from_data: validates the token
price, reads maxVol and contractSize from the contract details (any
ValueError/TypeError from float() is swallowed, leaving the limit at zero),
and formats the resulting USD limit. All remaining exceptions would be
caught by the outer handler returning Error; in this model every reachable
branch is total. -/
def maxPositionTokens (contract_data : Option (List (String × PyVal))) : ℚ :=
  match contract_data with
  | some cd =>
    if !cd.isEmpty then
      match pyFloat (pyDictGetD cd "maxVol" (.str "0")),
          pyFloat (pyDictGetD cd "contractSize" (.str "1")) with
      | .ok max_vol, .ok contract_size => max_vol * contract_size
      | _, _ => 0
    else 0
  | Option.none => 0

/-- The main body of calculate_buy_limit_from_data; max_position_tokens is
the value left by the inner try block (lines 20-27), max_usd_value the
product at line 39. -/
def calcBuyLimitFromData (contract_data : Option (List (String × PyVal)))
    (token_price : PyVal) : String :=
  if (match token_price with | .none => true | _ => false) || !pyIsNumber token_price then
    "Invalid Price"
  else if pyNumVal token_price ≤ 0 then "Invalid Price"
  else if maxPositionTokens contract_data = 0 then "API Required"
  else if maxPositionTokens contract_data * pyNumVal token_price ≥ 1000 then
    "$" ++ fmtFixed (maxPositionTokens contract_data * pyNumVal token_price) 0 true
  else if maxPositionTokens contract_data * pyNumVal token_price ≥ 1 then
    "$" ++ fmtFixed (maxPositionTokens contract_data * pyNumVal token_price) 2 true
  else "$" ++ fmtFixed (maxPositionTokens contract_data * pyNumVal token_price) 4 false

/-- C10: calculate_buy_limit_from_data is total on the model and returns
Invalid Price whenever the token price is None, not a number, or not
strictly positive, for every contract_data; in every other case the result
is the API Required placeholder or a dollar amount. -/
theorem buy_limit_total_invalid_price
    (contract_data : Option (List (String × PyVal))) (token_price : PyVal)
    (hbad : (match token_price with | .none => True | _ => False) ∨
      pyIsNumber token_price = false ∨ pyNumVal token_price ≤ 0) :
    calcBuyLimitFromData contract_data token_price = "Invalid Price" := by
  unfold calcBuyLimitFromData
  rcases hbad with h | h | h
  · cases token_price <;> simp_all
  · rw [h]
    simp
  · split
    · rfl
    · rfl

/-- Every result of calculate_buy_limit_from_data is one of the three
documented shapes, so the function always returns a string and never
raises in the model. -/
theorem buy_limit_result_shape
    (contract_data : Option (List (String × PyVal))) (token_price : PyVal) :
    calcBuyLimitFromData contract_data token_price = "Invalid Price" ∨
    calcBuyLimitFromData contract_data token_price = "API Required" ∨
    ∃ r, calcBuyLimitFromData contract_data token_price = "$" ++ r := by
  unfold calcBuyLimitFromData
  split
  · exact Or.inl rfl
  · split
    · exact Or.inl rfl
    · split
      · exact Or.inr (Or.inl rfl)
      · split
        · exact Or.inr (Or.inr ⟨_, rfl⟩)
        · split
          · exact Or.inr (Or.inr ⟨_, rfl⟩)
          · exact Or.inr (Or.inr ⟨_, rfl⟩)

/-- Witness for buy_limit_total_invalid_price: a non-numeric string price
with malformed contract data still yields Invalid Price. -/
theorem buy_limit_total_invalid_price_witness :
    pyIsNumber (.str "abc") = false ∧
    calcBuyLimitFromData (some [("maxVol", .list [])]) (.str "abc") = "Invalid Price" :=
  ⟨rfl, buy_limit_total_invalid_price (some [("maxVol", .list [])]) (.str "abc")
    (Or.inr (Or.inl rfl))⟩

/-! ## Multi-venue aggregation

CexAggregatorService (src/application/services/cex_aggregator_service.py):
get_aggregated_info (lines 37-72), _get_mexc_data (74-123), _get_gate_data
(132-202), _get_spot_prices (308-350) and BaseMessageBuilder._fmt_money
(base_message_builder.py lines 10-21). Each upstream call outcome is an
input: an entry of the asyncio.gather(..., return_exceptions=True) result,
modelled as Except String of the tri-state tuple. Exceptions raised while
processing a result are caught by the surrounding per-exchange try block,
which appends the single error string for that exchange. -/

/-- Python str(x), only the cases reachable from _fmt_money; its except
branch is reached only for values on which float() raised, and a truthiness
check precedes the call, so in this code base only nonempty strings,
lists and dicts arrive here. -/
def pyStr : PyVal → String
  | .str s => s
  | .boolean b => if b then "True" else "False"
  | .int n => toString n
  | .none => "None"
  | _ => "<object>"

/-- BaseMessageBuilder._fmt_money: format a price with magnitude-dependent
precision; on ValueError/TypeError fall back to str(x) or an em dash. -/
def fmtMoney (x : PyVal) : String :=
  match pyFloat x with
  | .ok val =>
    if val ≥ 1 then fmtFixed val 4 true
    else if val ≥ 1/10000 then fmtFixed val 6 false
    else fmtFixed val 8 false
  | .error _ => if pyTruthy x then pyStr x else "—"

/-- One entry of an ExchangeData.contracts list (dict literal built at
lines 112-117 and 191-196 of the aggregator). -/
structure ExchangeContract where
  address : PyVal
  network : PyVal
  deposit_enabled : PyVal
  withdraw_enabled : PyVal

/-- The per-exchange container ExchangeData (lines 15-25). -/
structure ExchangeData where
  name : String
  spot_price : Option String := Option.none
  futures_price : Option String := Option.none
  contracts : List ExchangeContract := []
  networks : List PyVal := []
  spot_url : Option String := Option.none
  futures_url : Option String := Option.none

/-- Truthiness of an Optional list payload, as in `if ok and nets:`. -/
def truthyListOpt {α : Type} : Option (List α) → Bool
  | some l => !l.isEmpty
  | Option.none => false

/-- Contract-details step of _get_mexc_data (lines 90-97): a truthy contract
payload sets the futures URL. -/
def mexcDataContracts (symbol : String)
    (rContract : Except String (TriState PyVal)) : ExchangeData :=
  let d0 : ExchangeData :=
    { name := "MEXC",
      spot_url := some ("https://www.mexc.com/exchange/" ++ normalizeMexcSymbol symbol) }
  match rContract with
  | .ok (ok_contract, _, contract) =>
    if ok_contract && (match contract with | some v => pyTruthy v | Option.none => false) then
      { d0 with
        futures_url := some ("https://futures.mexc.com/exchange/" ++ normalizeMexcSymbol symbol) }
    else d0
  | .error _ => d0

/-- Futures-ticker step of _get_mexc_data (lines 100-105): a truthy
lastPrice field sets the formatted futures price. -/
def mexcDataTicker (d : ExchangeData)
    (rTicker : Except String (TriState (List (String × PyVal)))) : ExchangeData :=
  match rTicker with
  | .ok (ok_ft, _, ft) =>
    if ok_ft && (match ft with | some fd => !fd.isEmpty | Option.none => false) then
      match ft with
      | some fd =>
        if pyTruthy (pyDictGet fd "lastPrice") then
          { d with futures_price := some (fmtMoney (pyDictGet fd "lastPrice") ++ "$") }
        else d
      | Option.none => d
    else d
  | .error _ => d

/-- Networks step of _get_mexc_data (lines 108-117) together with the
surrounding try block (lines 78, 121-123): the first network entry becomes
the contract record; net.get on a non-dict entry raises AttributeError,
which the except branch converts into the single MEXC error string. -/
def mexcDataNets (d : ExchangeData)
    (rNets : Except String (TriState (List PyVal))) :
    Option ExchangeData × List String :=
  match rNets with
  | .ok (ok_nets, _, nets) =>
    if ok_nets && truthyListOpt nets then
      match nets with
      | some (net :: _) =>
        match net with
        | .dict nd =>
          (some { d with
                  contracts := [{ address := pyDictGetD nd "contract" (.str ""),
                                  network := pyDictGetD nd "network" (.str ""),
                                  deposit_enabled := pyDictGetD nd "depositEnable" (.boolean false),
                                  withdraw_enabled := pyDictGetD nd "withdrawEnable" (.boolean false) }] },
            [])
        | _ => (Option.none, ["MEXC error: AttributeError"])
      | _ => (some d, [])
    else (some d, [])
  | .error _ => (some d, [])

/-- CexAggregatorService._get_mexc_data (lines 74-123). -/
def getMexcData (symbol : String)
    (rContract : Except String (TriState PyVal))
    (rTicker : Except String (TriState (List (String × PyVal))))
    (rNets : Except String (TriState (List PyVal))) :
    Option ExchangeData × List String :=
  mexcDataNets (mexcDataTicker (mexcDataContracts symbol rContract) rTicker) rNets

/-- The `for ... if x.get(key, '').upper() == target: break` search shared by
the three Gate.io loops; a non-dict element or a non-string key value makes
the loop body raise (AttributeError), modelled as Except.error. -/
def findByKeyUpper (key target : String) : List PyVal → Except String (Option (List (String × PyVal)))
  | [] => .ok Option.none
  | c :: rest =>
    match c with
    | .dict d =>
      match pyDictGetD d key (.str "") with
      | .str s =>
        if pyUpperStr s = target then .ok (some d) else findByKeyUpper key target rest
      | _ => .error "AttributeError"
    | _ => .error "AttributeError"

/-- Futures-contracts step of _get_gate_data (lines 150-160). -/
def gateStepContracts (target : String) (d : ExchangeData)
    (rContracts : Except String (TriState (List PyVal))) : Except String ExchangeData :=
  match rContracts with
  | .ok (ok_contracts, _, contracts) =>
    if ok_contracts && truthyListOpt contracts then
      match contracts with
      | some l =>
        match findByKeyUpper "name" target l with
        | .ok (some _) =>
          .ok { d with
                futures_url := some ("https://www.gate.io/futures/USDT/" ++ target) }
        | .ok Option.none => .ok d
        | .error e => .error e
      | Option.none => .ok d
    else .ok d
  | .error _ => .ok d

/-- Futures-tickers step of _get_gate_data (lines 163-172). -/
def gateStepTickers (target : String) (d : ExchangeData)
    (rTickers : Except String (TriState (List PyVal))) : Except String ExchangeData :=
  match rTickers with
  | .ok (ok_tickers, _, tickers) =>
    if ok_tickers && truthyListOpt tickers then
      match tickers with
      | some l =>
        match findByKeyUpper "contract" target l with
        | .ok (some td) =>
          .ok (if pyTruthy (pyDictGet td "last") then
                 { d with
                   futures_price := some (fmtMoney (pyDictGet td "last") ++ "$") }
               else d)
        | .ok Option.none => .ok d
        | .error e => .error e
      | Option.none => .ok d
    else .ok d
  | .error _ => .ok d

/-- Spot-tickers step of _get_gate_data (lines 175-183). -/
def gateStepSpot (normalized target : String) (d : ExchangeData)
    (rSpot : Except String (TriState (List PyVal))) : Except String ExchangeData :=
  match rSpot with
  | .ok (ok_spot, _, spot_tickers) =>
    if ok_spot && truthyListOpt spot_tickers then
      match spot_tickers with
      | some l =>
        match findByKeyUpper "currency_pair" target l with
        | .ok (some td) =>
          .ok (if pyTruthy (pyDictGet td "last") then
                 { d with
                   spot_url := some ("https://www.gate.io/trade/" ++ normalized ++ "_USDT") }
               else d)
        | .ok Option.none => .ok d
        | .error e => .error e
      | Option.none => .ok d
    else .ok d
  | .error _ => .ok d

/-- Currency-info step of _get_gate_data (lines 186-196): the first chain of
currency_data.get("chains", []) becomes the contract record; slicing a
non-list raises TypeError, chain.get on a non-dict raises AttributeError. -/
def gateStepCurrency (d : ExchangeData)
    (rCurrency : Except String (TriState (List (String × PyVal)))) :
    Except String ExchangeData :=
  match rCurrency with
  | .ok (ok_currency, _, currency_data) =>
    if ok_currency && (match currency_data with
        | some cd => !cd.isEmpty | Option.none => false) then
      match currency_data with
      | some cdd =>
        match pyDictGetD cdd "chains" (.list []) with
        | .list [] => .ok d
        | .list (chain :: _) =>
          match chain with
          | .dict ch =>
            .ok { d with
                  contracts := [{ address := pyDictGetD ch "addr" (.str ""),
                                  network := pyDictGetD ch "name" (.str ""),
                                  deposit_enabled := .boolean (!pyTruthy (pyDictGetD ch "deposit_disabled" (.boolean false))),
                                  withdraw_enabled := .boolean (!pyTruthy (pyDictGetD ch "withdraw_disabled" (.boolean false))) }] }
          | _ => .error "AttributeError"
        | _ => .error "TypeError"
      | Option.none => .ok d
    else .ok d
  | .error _ => .ok d

/-- CexAggregatorService._get_gate_data (lines 132-202): the four steps run
inside one try block; any raise is converted into the single Gate.io error
string. -/
def getGateData (symbol : String)
    (rContracts rTickers rSpot : Except String (TriState (List PyVal)))
    (rCurrency : Except String (TriState (List (String × PyVal)))) :
    Option ExchangeData × List String :=
  match gateStepContracts (pyUpperStr symbol ++ "_USDT") { name := "GATE" } rContracts with
  | .error e => (Option.none, ["Gate.io error: " ++ e])
  | .ok d1 =>
    match gateStepTickers (pyUpperStr symbol ++ "_USDT") d1 rTickers with
    | .error e => (Option.none, ["Gate.io error: " ++ e])
    | .ok d2 =>
      match gateStepSpot (pyUpperStr symbol) (pyUpperStr symbol ++ "_USDT") d2 rSpot with
      | .error e => (Option.none, ["Gate.io error: " ++ e])
      | .ok d3 =>
        match gateStepCurrency d3 rCurrency with
        | .error e => (Option.none, ["Gate.io error: " ++ e])
        | .ok d => (some d, [])

/-- The GATE branch of _get_spot_prices.get_price (lines 313-321): any
exception, including one propagating out of get_json, is swallowed and
becomes None. -/
def getPriceGate (r : Except String (TriState PyVal)) : PyVal :=
  match r with
  | .error _ => .none
  | .ok (ok, _, data) =>
    if ok then
      match data with
      | some (.list (first :: _)) =>
        match first with
        | .dict d => pyDictGet d "last"
        | _ => .none
      | _ => .none
    else .none

/-- The MEXC branch of _get_spot_prices.get_price (lines 323-331). -/
def getPriceMexc (r : Except String (TriState PyVal)) : PyVal :=
  match r with
  | .error _ => .none
  | .ok (ok, _, data) =>
    if ok then
      match data with
      | some (.dict d) => pyDictGet d "price"
      | _ => .none
    else .none

/-- CexAggregatorService._get_spot_prices (lines 308-350): the GATE and MEXC
spot price entries, present only when truthy. -/
def getSpotPrices (rGate rMexc : Except String (TriState PyVal)) :
    Option PyVal × Option PyVal :=
  (if pyTruthy (getPriceGate rGate) then some (getPriceGate rGate) else Option.none,
   if pyTruthy (getPriceMexc rMexc) then some (getPriceMexc rMexc) else Option.none)

/-- The merged per-request view assembled by get_aggregated_info before the
message is rendered: the two per-exchange containers, the two spot prices
and the collected error strings. -/
structure AggregatedResult where
  mexc : Option ExchangeData
  gate : Option ExchangeData
  spotGate : Option PyVal
  spotMexc : Option PyVal
  errors : List String

/-- CexAggregatorService.get_aggregated_info (lines 37-72): await the three
sub-aggregations and concatenate their error lists. -/
def getAggregatedInfo (symbol : String)
    (rContract : Except String (TriState PyVal))
    (rTicker : Except String (TriState (List (String × PyVal))))
    (rNets : Except String (TriState (List PyVal)))
    (rGContracts rGTickers rGSpot : Except String (TriState (List PyVal)))
    (rGCurrency : Except String (TriState (List (String × PyVal))))
    (rSpotGate rSpotMexc : Except String (TriState PyVal)) : AggregatedResult :=
  { mexc := (getMexcData symbol rContract rTicker rNets).1,
    gate := (getGateData symbol rGContracts rGTickers rGSpot rGCurrency).1,
    spotGate := (getSpotPrices rSpotGate rSpotMexc).1,
    spotMexc := (getSpotPrices rSpotGate rSpotMexc).2,
    errors := (getMexcData symbol rContract rTicker rNets).2
      ++ (getGateData symbol rGContracts rGTickers rGSpot rGCurrency).2 }

/-! ## Shape predicates for well-formed upstream payloads

The per-exchange try blocks raise only while iterating malformed successful
payloads; these predicates carve out the payload shapes on which no raise
can happen. Failed calls (ok = false, missing payloads, exceptions inside
the gather result) are unconstrained. -/

/-- The first element of a present, non-empty list payload is a dict. -/
def headIsDict : Option (List PyVal) → Bool
  | some (c :: _) => (match c with | .dict _ => true | _ => false)
  | _ => true

/-- Shape of the MEXC wallet-networks result: only the first entry is
touched (nets[:1]), so only it must be a dict. -/
def mexcNetsShape : Except String (TriState (List PyVal)) → Bool
  | .ok (_, _, nets) => headIsDict nets
  | .error _ => true

/-- Every element is a dict whose key field, when read with default "",
is a string. -/
def dictsWithStrKey (key : String) : List PyVal → Bool
  | [] => true
  | c :: rest =>
    match c with
    | .dict d =>
      (match pyDictGetD d key (.str "") with | .str _ => true | _ => false)
        && dictsWithStrKey key rest
    | _ => false

/-- Shape of a Gate list result scanned with x.get(key, "").upper(). -/
def gateListShape (key : String) : Except String (TriState (List PyVal)) → Bool
  | .ok (_, _, some l) => dictsWithStrKey key l
  | _ => true

/-- Shape of the Gate currency result: chains is a list whose first entry,
if any, is a dict. -/
def gateCurrencyShape : Except String (TriState (List (String × PyVal))) → Bool
  | .ok (_, _, some cdd) =>
    (match pyDictGetD cdd "chains" (.list []) with
     | .list l => headIsDict (some l)
     | _ => false)
  | _ => true

/-- On a well-shaped networks result, the MEXC aggregation step records no
error string, returns a container, and leaves the futures price exactly as
the previous steps computed it. -/
theorem mexcDataNets_no_error (d : ExchangeData)
    (rN : Except String (TriState (List PyVal))) (h : mexcNetsShape rN = true) :
    (mexcDataNets d rN).2 = [] ∧
    (mexcDataNets d rN).1.map ExchangeData.futures_price = some d.futures_price := by
  unfold mexcDataNets
  cases rN with
  | error e => exact ⟨rfl, rfl⟩
  | ok v =>
    obtain ⟨ok_nets, err, nets⟩ := v
    dsimp only
    by_cases hc : (ok_nets && truthyListOpt nets) = true
    · rw [if_pos hc]
      cases nets with
      | none => exact ⟨rfl, rfl⟩
      | some l =>
        cases l with
        | nil => exact ⟨rfl, rfl⟩
        | cons net rest =>
          unfold mexcNetsShape headIsDict at h
          cases net with
          | dict nd => exact ⟨rfl, rfl⟩
          | none => simp at h
          | boolean b => simp at h
          | int n => simp at h
          | float q => simp at h
          | str s => simp at h
          | list l2 => simp at h
    · rw [if_neg hc]
      exact ⟨rfl, rfl⟩

/-- The MEXC ticker step leaves the container unchanged when the futures
ticker call failed with no payload. -/
theorem mexcDataTicker_failed (d : ExchangeData) (e : String) :
    mexcDataTicker d (.ok (false, e, Option.none)) = d := rfl

/-- The contracts step never sets a futures price. -/
theorem mexcDataContracts_futures_price (symbol : String)
    (rC : Except String (TriState PyVal)) :
    (mexcDataContracts symbol rC).futures_price = Option.none := by
  unfold mexcDataContracts
  cases rC with
  | error e => rfl
  | ok v =>
    obtain ⟨ok_contract, err, contract⟩ := v
    dsimp only
    by_cases hc : (ok_contract && (match contract with
        | some v => pyTruthy v | Option.none => false)) = true
    · rw [if_pos hc]
    · rw [if_neg hc]

/-- A scan over a well-shaped list never raises. -/
theorem findByKeyUpper_ok (key target : String) :
    ∀ (l : List PyVal), dictsWithStrKey key l = true →
      ∃ r, findByKeyUpper key target l = .ok r
  | [], _ => ⟨Option.none, rfl⟩
  | c :: rest, h => by
    unfold dictsWithStrKey at h
    cases c with
    | dict d =>
      rw [Bool.and_eq_true] at h
      unfold findByKeyUpper
      dsimp only
      cases hm : pyDictGetD d key (.str "") with
      | str s =>
        by_cases he : pyUpperStr s = target
        · exact ⟨some d, by dsimp only; rw [if_pos he]⟩
        · obtain ⟨r, hr⟩ := findByKeyUpper_ok key target rest h.2
          exact ⟨r, by dsimp only; rw [if_neg he]; exact hr⟩
      | none => rw [hm] at h; simp at h
      | boolean b => rw [hm] at h; simp at h
      | int n => rw [hm] at h; simp at h
      | float q => rw [hm] at h; simp at h
      | list l2 => rw [hm] at h; simp at h
      | dict d2 => rw [hm] at h; simp at h
    | none => simp at h
    | boolean b => simp at h
    | int n => simp at h
    | float q => simp at h
    | str s => simp at h
    | list l2 => simp at h

/-- The Gate futures-contracts step never raises on a well-shaped result. -/
theorem gateStepContracts_ok (target : String) (d : ExchangeData)
    (rC : Except String (TriState (List PyVal)))
    (h : gateListShape "name" rC = true) :
    ∃ d', gateStepContracts target d rC = .ok d' := by
  unfold gateStepContracts
  cases rC with
  | error e => exact ⟨d, rfl⟩
  | ok v =>
    obtain ⟨okc, err, contracts⟩ := v
    dsimp only
    by_cases hc : (okc && truthyListOpt contracts) = true
    · rw [if_pos hc]
      cases contracts with
      | none => exact ⟨d, rfl⟩
      | some l =>
        dsimp only
        unfold gateListShape at h
        dsimp only at h
        obtain ⟨r, hr⟩ := findByKeyUpper_ok "name" target l h
        cases r with
        | some td => exact ⟨_, by rw [hr]⟩
        | none => exact ⟨d, by rw [hr]⟩
    · rw [if_neg hc]
      exact ⟨d, rfl⟩

/-- The Gate futures-tickers step never raises on a well-shaped result. -/
theorem gateStepTickers_ok (target : String) (d : ExchangeData)
    (rT : Except String (TriState (List PyVal)))
    (h : gateListShape "contract" rT = true) :
    ∃ d', gateStepTickers target d rT = .ok d' := by
  unfold gateStepTickers
  cases rT with
  | error e => exact ⟨d, rfl⟩
  | ok v =>
    obtain ⟨okt, err, tickers⟩ := v
    dsimp only
    by_cases hc : (okt && truthyListOpt tickers) = true
    · rw [if_pos hc]
      cases tickers with
      | none => exact ⟨d, rfl⟩
      | some l =>
        dsimp only
        unfold gateListShape at h
        dsimp only at h
        obtain ⟨r, hr⟩ := findByKeyUpper_ok "contract" target l h
        cases r with
        | some td => exact ⟨_, by rw [hr]⟩
        | none => exact ⟨d, by rw [hr]⟩
    · rw [if_neg hc]
      exact ⟨d, rfl⟩

/-- The Gate spot-tickers step never raises on a well-shaped result. -/
theorem gateStepSpot_ok (normalized target : String) (d : ExchangeData)
    (rS : Except String (TriState (List PyVal)))
    (h : gateListShape "currency_pair" rS = true) :
    ∃ d', gateStepSpot normalized target d rS = .ok d' := by
  unfold gateStepSpot
  cases rS with
  | error e => exact ⟨d, rfl⟩
  | ok v =>
    obtain ⟨oks, err, spot⟩ := v
    dsimp only
    by_cases hc : (oks && truthyListOpt spot) = true
    · rw [if_pos hc]
      cases spot with
      | none => exact ⟨d, rfl⟩
      | some l =>
        dsimp only
        unfold gateListShape at h
        dsimp only at h
        obtain ⟨r, hr⟩ := findByKeyUpper_ok "currency_pair" target l h
        cases r with
        | some td => exact ⟨_, by rw [hr]⟩
        | none => exact ⟨d, by rw [hr]⟩
    · rw [if_neg hc]
      exact ⟨d, rfl⟩

/-- The Gate currency step never raises on a well-shaped result. -/
theorem gateStepCurrency_ok (d : ExchangeData)
    (rCur : Except String (TriState (List (String × PyVal))))
    (h : gateCurrencyShape rCur = true) :
    ∃ d', gateStepCurrency d rCur = .ok d' := by
  unfold gateStepCurrency
  cases rCur with
  | error e => exact ⟨d, rfl⟩
  | ok v =>
    obtain ⟨okc, err, cd⟩ := v
    dsimp only
    split
    · cases cd with
      | none => exact ⟨d, rfl⟩
      | some cdd =>
        dsimp only
        unfold gateCurrencyShape at h
        dsimp only at h
        cases hm : pyDictGetD cdd "chains" (.list []) with
        | list chains =>
          rw [hm] at h
          cases chains with
          | nil => exact ⟨d, rfl⟩
          | cons chain rest =>
            unfold headIsDict at h
            cases chain with
            | dict ch => exact ⟨_, rfl⟩
            | none => simp at h
            | boolean b => simp at h
            | int n => simp at h
            | float q => simp at h
            | str s => simp at h
            | list l2 => simp at h
        | none => rw [hm] at h; simp at h
        | boolean b => rw [hm] at h; simp at h
        | int n => rw [hm] at h; simp at h
        | float q => rw [hm] at h; simp at h
        | str s => rw [hm] at h; simp at h
        | dict d2 => rw [hm] at h; simp at h
    · exact ⟨d, rfl⟩

/-- On well-shaped Gate payloads the aggregation records no error string and
returns a container; failed calls are unconstrained. -/
theorem getGateData_no_error (symbol : String)
    (rFC rFT rSP : Except String (TriState (List PyVal)))
    (rCur : Except String (TriState (List (String × PyVal))))
    (h1 : gateListShape "name" rFC = true)
    (h2 : gateListShape "contract" rFT = true)
    (h3 : gateListShape "currency_pair" rSP = true)
    (h4 : gateCurrencyShape rCur = true) :
    (getGateData symbol rFC rFT rSP rCur).2 = [] ∧
    (getGateData symbol rFC rFT rSP rCur).1.isSome = true := by
  unfold getGateData
  obtain ⟨d1, e1⟩ := gateStepContracts_ok (pyUpperStr symbol ++ "_USDT") { name := "GATE" } rFC h1
  obtain ⟨d2, e2⟩ := gateStepTickers_ok (pyUpperStr symbol ++ "_USDT") d1 rFT h2
  obtain ⟨d3, e3⟩ := gateStepSpot_ok (pyUpperStr symbol) (pyUpperStr symbol ++ "_USDT") d2 rSP h3
  obtain ⟨d4, e4⟩ := gateStepCurrency_ok d3 rCur h4
  rw [e1]
  dsimp only
  rw [e2]
  dsimp only
  rw [e3]
  dsimp only
  rw [e4]
  exact ⟨rfl, rfl⟩

/-- On a well-shaped networks payload the MEXC aggregation records no error
string and returns a container. -/
theorem getMexcData_no_error (symbol : String)
    (rContract : Except String (TriState PyVal))
    (rTicker : Except String (TriState (List (String × PyVal))))
    (rNets : Except String (TriState (List PyVal)))
    (h : mexcNetsShape rNets = true) :
    (getMexcData symbol rContract rTicker rNets).2 = [] ∧
    (getMexcData symbol rContract rTicker rNets).1.isSome = true := by
  unfold getMexcData
  have hh := mexcDataNets_no_error (mexcDataTicker (mexcDataContracts symbol rContract) rTicker)
    rNets h
  refine ⟨hh.1, ?_⟩
  cases hm : (mexcDataNets (mexcDataTicker (mexcDataContracts symbol rContract) rTicker) rNets).1 with
  | none => rw [hm] at hh; simp at hh
  | some d => rfl

/-- C3 counterexample: with the MEXC futures-ticker call (one of the
upstream calls) failing tri-state and every other call succeeding, the
aggregation returns the merged view with the other fields populated and
does not raise, but it records zero error strings, not exactly one: the
error list of the returned view is empty. -/
theorem aggregate_error_strings_cex :
    (let r := getAggregatedInfo "BTC"
      (.ok (true, "", some (.dict [("symbol", .str "BTC_USDT")])))
      (.ok (false, "HTTP 500: boom", Option.none))
      (.ok (true, "", some [.dict [("network", .str "BSC"), ("contract", .str "0xabc")]]))
      (.ok (true, "", some [.dict [("name", .str "BTC_USDT")]]))
      (.ok (true, "", some [.dict [("contract", .str "BTC_USDT"), ("last", .str "9.99x")]]))
      (.ok (true, "", some [.dict [("currency_pair", .str "BTC_USDT"), ("last", .str "8.88x")]]))
      (.ok (true, "", some [("chains", .list [.dict [("addr", .str "0xabc"), ("name", .str "BSC")]])]))
      (.ok (true, "", some (.list [.dict [("last", .str "7.77x")]])))
      (.ok (true, "", some (.dict [("price", .str "6.66x")])))
    r.errors.length = 0 ∧
    r.mexc.map ExchangeData.futures_price = some Option.none ∧
    r.mexc.map ExchangeData.futures_url
      = some (some "https://futures.mexc.com/exchange/BTC_USDT") ∧
    r.gate.map ExchangeData.futures_price = some (some "9.99x$") ∧
    r.gate.map ExchangeData.spot_url = some (some "https://www.gate.io/trade/BTC_USDT") ∧
    r.spotGate = some (.str "7.77x") ∧
    r.spotMexc = some (.str "6.66x")) :=
  ⟨rfl, rfl, rfl, rfl, rfl, rfl, rfl⟩

/-- C3 amended: when the MEXC futures-ticker call fails (tri-state, no
payload) while the remaining upstream results are well shaped, aggregation
still returns the merged view without raising: both exchange containers are
present, the failed field stays unpopulated, the Gate container is exactly
the one computed from the Gate calls alone — but the error list is empty;
per-call tri-state failures are degraded silently and never recorded as
error strings, which only arise when a malformed successful payload makes a
per-exchange block raise. -/
theorem aggregate_partial_failure_amended
    (symbol e : String)
    (rContract : Except String (TriState PyVal))
    (rNets : Except String (TriState (List PyVal)))
    (rGC rGT rGS : Except String (TriState (List PyVal)))
    (rGCur : Except String (TriState (List (String × PyVal))))
    (rSG rSM : Except String (TriState PyVal))
    (hN : mexcNetsShape rNets = true)
    (h1 : gateListShape "name" rGC = true)
    (h2 : gateListShape "contract" rGT = true)
    (h3 : gateListShape "currency_pair" rGS = true)
    (h4 : gateCurrencyShape rGCur = true) :
    (getAggregatedInfo symbol rContract (.ok (false, e, Option.none)) rNets
      rGC rGT rGS rGCur rSG rSM).errors = [] ∧
    (getAggregatedInfo symbol rContract (.ok (false, e, Option.none)) rNets
      rGC rGT rGS rGCur rSG rSM).mexc.map ExchangeData.futures_price = some Option.none ∧
    (getAggregatedInfo symbol rContract (.ok (false, e, Option.none)) rNets
      rGC rGT rGS rGCur rSG rSM).mexc.isSome = true ∧
    (getAggregatedInfo symbol rContract (.ok (false, e, Option.none)) rNets
      rGC rGT rGS rGCur rSG rSM).gate = (getGateData symbol rGC rGT rGS rGCur).1 ∧
    (getAggregatedInfo symbol rContract (.ok (false, e, Option.none)) rNets
      rGC rGT rGS rGCur rSG rSM).gate.isSome = true := by
  have hm := getMexcData_no_error symbol rContract (.ok (false, e, Option.none)) rNets hN
  have hg := getGateData_no_error symbol rGC rGT rGS rGCur h1 h2 h3 h4
  have hnets := mexcDataNets_no_error
    (mexcDataTicker (mexcDataContracts symbol rContract) (.ok (false, e, Option.none))) rNets hN
  refine ⟨?_, ?_, hm.2, rfl, hg.2⟩
  · show (getMexcData symbol rContract (.ok (false, e, Option.none)) rNets).2
      ++ (getGateData symbol rGC rGT rGS rGCur).2 = []
    rw [hm.1, hg.1]
    rfl
  · show (mexcDataNets (mexcDataTicker (mexcDataContracts symbol rContract)
      (.ok (false, e, Option.none))) rNets).1.map ExchangeData.futures_price = some Option.none
    rw [hnets.2, mexcDataTicker_failed, mexcDataContracts_futures_price]

/-- Witness for aggregate_partial_failure_amended at the concrete inputs of
the counterexample scenario. -/
theorem aggregate_partial_failure_amended_witness :
    mexcNetsShape (.ok (true, "",
      some [.dict [("network", .str "BSC"), ("contract", .str "0xabc")]])) = true ∧
    (getAggregatedInfo "BTC"
      (.ok (true, "", some (.dict [("symbol", .str "BTC_USDT")])))
      (.ok (false, "HTTP 500: boom", Option.none))
      (.ok (true, "", some [.dict [("network", .str "BSC"), ("contract", .str "0xabc")]]))
      (.ok (true, "", some [.dict [("name", .str "BTC_USDT")]]))
      (.ok (true, "", some [.dict [("contract", .str "BTC_USDT"), ("last", .str "9.99x")]]))
      (.ok (true, "", some [.dict [("currency_pair", .str "BTC_USDT"), ("last", .str "8.88x")]]))
      (.ok (true, "", some [("chains", .list [.dict [("addr", .str "0xabc"), ("name", .str "BSC")]])]))
      (.ok (true, "", some (.list [.dict [("last", .str "7.77x")]])))
      (.ok (true, "", some (.dict [("price", .str "6.66x")])))).errors = [] :=
  ⟨rfl,
    (aggregate_partial_failure_amended "BTC" "HTTP 500: boom"
      (.ok (true, "", some (.dict [("symbol", .str "BTC_USDT")])))
      (.ok (true, "", some [.dict [("network", .str "BSC"), ("contract", .str "0xabc")]]))
      (.ok (true, "", some [.dict [("name", .str "BTC_USDT")]]))
      (.ok (true, "", some [.dict [("contract", .str "BTC_USDT"), ("last", .str "9.99x")]]))
      (.ok (true, "", some [.dict [("currency_pair", .str "BTC_USDT"), ("last", .str "8.88x")]]))
      (.ok (true, "", some [("chains", .list [.dict [("addr", .str "0xabc"), ("name", .str "BSC")]])]))
      (.ok (true, "", some (.list [.dict [("last", .str "7.77x")]])))
      (.ok (true, "", some (.dict [("price", .str "6.66x")])))
      rfl rfl rfl rfl rfl).1⟩

/-- Witness for shouldAlert_threshold_iff at the spec example prices. -/
theorem shouldAlert_threshold_iff_witness :
    shouldAlert 100 95 = true ↔
      (0 < (100 : ℚ) ∧ 0 < (95 : ℚ) ∧ |(((100 : ℚ) - 95) / 95) * 100| ≥ 5) :=
  shouldAlert_threshold_iff 100 95

/-- Witness for normalize_mexc_symbol_idem at a concrete symbol. -/
theorem normalize_mexc_symbol_idem_witness :
    normalizeMexcSymbol (normalizeMexcSymbol " btc-usdt ") = normalizeMexcSymbol " btc-usdt " ∧
    '_' ∈ (normalizeMexcSymbol " btc-usdt ").data ∧
    ∀ c ∈ (normalizeMexcSymbol " btc-usdt ").data, c.toUpper = c :=
  normalize_mexc_symbol_idem " btc-usdt "
